import Mathlib

/-!
Shallow embedding of `src/components/tabBar/index.tsx` (the `TabBar` React
component of react-native-ui-lib).

The component is a class with props, a small state object
(`scrollEnabled`, `currentIndex`), two mutable instance fields
(`scrollContentWidth`, `contentOffset`), and event handlers.  We embed:

* props and state as structures (JS `undefined`-able fields become `Option`);
* JS truthiness of `x || y` as explicit `jsOr…` helpers (`0`, `""`,
  `undefined` are falsy);
* each method as a pure function on the state (React `setState` is modelled
  as returning the updated state);
* the callbacks fired from the `setTimeout(…, 0)` body of `onItemPress` as an
  emitted event trace (`_.invoke(obj, 'f', x)` is a call of `obj.f x` that is
  a no-op when the callback is absent; the trace records the attempted
  invocations in order);
* the possible runtime `TypeError` in `scrollToSelected` (reading
  `.getLayout()` off an absent array element) as `Except String`.

Numbers that the source compares and subtracts (layout x/width, scroll
offsets, container widths) are embedded as `Int`; counts and indices as `Nat`.
-/

namespace RNTabBar

/-- `const MIN_TABS_FOR_SCROLL = 1`. -/
def MIN_TABS_FOR_SCROLL : Nat := 1

/-- The props of a child `TabBar.Item` that the `TabBar` component reads:
`ignore`, `accessibilityLabel`, `label` (each possibly absent; `ignore` is
read through `_.get`, so an absent prop is falsy, embedded as `Bool`). -/
structure Child where
  ignore : Bool
  accessibilityLabel : Option String
  label : Option String
  deriving Repr, DecidableEq

/-- The `TabBar` props that drive the embedded logic.  `selectedIndex` has
default `0` supplied by `defaultProps`, so it is always present. -/
structure TabBarProps where
  children : List Child
  minTabsForScroll : Option Nat
  selectedIndex : Nat
  containerWidth : Option Int
  deriving Repr, DecidableEq

/-- The component state together with the mutable instance fields:
`scrollEnabled` and `currentIndex` are React state; `scrollContentWidth`
(initially `undefined`) and `contentOffset` are instance fields. -/
structure TabBarState where
  scrollEnabled : Bool
  currentIndex : Nat
  scrollContentWidth : Option Int
  contentOffsetX : Int
  contentOffsetY : Int
  deriving Repr, DecidableEq

/-- The constructor: `scrollEnabled: false`, `currentIndex:
props.selectedIndex`, `contentOffset = {x: 0, y: 0}`;
`scrollContentWidth` starts `undefined`. -/
def initialState (p : TabBarProps) : TabBarState :=
  { scrollEnabled := false
    currentIndex := p.selectedIndex
    scrollContentWidth := none
    contentOffsetX := 0
    contentOffsetY := 0 }

/-- JS `a || b` for an optional number with `0` falsy. -/
def jsOrNat (a : Option Nat) (b : Nat) : Nat :=
  match a with
  | some n => if n = 0 then b else n
  | none => b

/-- JS `a || b` for an optional integer with `0` falsy. -/
def jsOrInt (a : Option Int) (b : Int) : Int :=
  match a with
  | some n => if n = 0 then b else n
  | none => b

/-- JS `a || b` for an optional string with `""` falsy. -/
def jsOrString (a : Option String) (b : String) : String :=
  match a with
  | some s => if s = "" then b else s
  | none => b

/-- `get childrenCount() { return React.Children.count(this.props.children) }`. -/
def childrenCount (p : TabBarProps) : Nat :=
  p.children.length

/-- `get scrollContainerWidth() { return this.props.containerWidth ||
Constants.screenWidth }`; `screenWidth` is the ambient screen width. -/
def scrollContainerWidth (p : TabBarProps) (screenWidth : Int) : Int :=
  jsOrInt p.containerWidth screenWidth

/-- `isIgnored(index)`: reads `props.ignore` off the child at `index`
(`_.get` of an absent child yields `undefined`, which is falsy). -/
def isIgnored (p : TabBarProps) (index : Nat) : Bool :=
  match p.children[index]? with
  | some child => child.ignore
  | none => false

/-- `hasOverflow()`: `this.scrollContentWidth > this.scrollContainerWidth`
(`undefined > w` is `false` in JS). -/
def hasOverflow (p : TabBarProps) (screenWidth : Int) (s : TabBarState) : Bool :=
  match s.scrollContentWidth with
  | some w => w > scrollContainerWidth p screenWidth
  | none => false

/-- `shouldBeMarked = index => this.state.currentIndex === index &&
!this.isIgnored(index) && this.childrenCount > 1`. -/
def shouldBeMarked (p : TabBarProps) (s : TabBarState) (index : Nat) : Bool :=
  s.currentIndex == index && !(isIgnored p index) && childrenCount p > 1

/-- `updateIndicator(index)`: sets `currentIndex` only when the index is not
ignored (the `scrollToSelected` fired from the `setState` callback is
modelled separately by `scrollToSelected`). -/
def updateIndicator (p : TabBarProps) (index : Nat) (s : TabBarState) : TabBarState :=
  if isIgnored p index then s else { s with currentIndex := index }

/-- The result of an item ref's `getLayout()` (x position and width). -/
structure Layout where
  x : Int
  width : Int
  deriving Repr, DecidableEq

/-- A rendered tab-item handle; `getLayout()` may return `undefined` before
layout, hence `Option Layout`. -/
structure ItemRef where
  layout : Option Layout
  deriving Repr, DecidableEq

/-- An argument to `this.scrollBar.current.scrollTo({x, y, animated})`. -/
structure ScrollTo where
  x : Int
  y : Int
  animated : Bool
  deriving Repr, DecidableEq

/-- The runtime error message when `this.itemsRefs[this.state.currentIndex]`
is absent and `.getLayout()` is read off `undefined`. -/
def typeErrorMsg : String := "TypeError: childRef.getLayout is not a function"

/-- `scrollToSelected(animated = true)`.  `itemsRefs` is the transient ref
array built during render; an out-of-bounds or null entry is `none`, and
calling `.getLayout()` on it throws (embedded as `Except.error`).  A present
ref whose layout is still `undefined` fails the `if (childLayout && …)` guard
and no scroll is issued (`Except.ok none`). -/
def scrollToSelected (p : TabBarProps) (screenWidth : Int)
    (itemsRefs : List (Option ItemRef)) (s : TabBarState) (animated : Bool) :
    Except String (Option ScrollTo) :=
  match itemsRefs.getD s.currentIndex none with
  | none => Except.error typeErrorMsg
  | some childRef =>
    match childRef.layout with
    | none => Except.ok none
    | some childLayout =>
      if hasOverflow p screenWidth s then
        if childLayout.x + childLayout.width - s.contentOffsetX >
            scrollContainerWidth p screenWidth then
          Except.ok (some
            { x := childLayout.x - scrollContainerWidth p screenWidth + childLayout.width
              y := 0
              animated := animated })
        else if childLayout.x - s.contentOffsetX < 0 then
          Except.ok (some { x := childLayout.x, y := 0, animated := animated })
        else
          Except.ok none
      else
        Except.ok none

/-- The external callback invocations performed in the `setTimeout(…, 0)`
body of `onItemPress`: `this.onChangeIndex(index)` / `this.onTabSelected(index)`
(each an `_.invoke` of the corresponding prop) and `_.invoke(props, 'onPress')`
on the item's own props. -/
inductive TabBarEvent where
  | changeIndex (index : Nat)
  | tabSelected (index : Nat)
  | itemOnPress
  deriving Repr, DecidableEq

/-- `onItemPress = (index, props) => { this.updateIndicator(index);
setTimeout(() => { if (!props.ignore) this.onChangeIndex(index);
this.onTabSelected(index); _.invoke(props, 'onPress'); }, 0) }`.
The state update is the synchronous part; the event list is the deferred
zero-delay part, in invocation order. -/
def onItemPress (p : TabBarProps) (index : Nat) (childProps : Child)
    (s : TabBarState) : TabBarState × List TabBarEvent :=
  (updateIndicator p index s,
    (if childProps.ignore then [] else [TabBarEvent.changeIndex index]) ++
      [TabBarEvent.tabSelected index, TabBarEvent.itemOnPress])

/-- Pressing the rendered tab at `index`: `renderChildren` wires each clone's
`onPress` to `this.onItemPress(index, child.props)` where `child` is the
child at `index`, so the pressed item's props are `children[index]`.  At an
index where no tab is rendered there is nothing to press. -/
def pressTab (p : TabBarProps) (index : Nat) (s : TabBarState) :
    TabBarState × List TabBarEvent :=
  match p.children[index]? with
  | some child => onItemPress p index child s
  | none => (s, [])

/-- `onScroll`: stores the event's `contentOffset`. -/
def onScroll (x y : Int) (s : TabBarState) : TabBarState :=
  { s with contentOffsetX := x, contentOffsetY := y }

/-- The effective minimum children count of `onContentSizeChange`:
`minTabsForScroll || MIN_TABS_FOR_SCROLL`. -/
def effectiveMinTabs (p : TabBarProps) : Nat :=
  jsOrNat p.minTabsForScroll MIN_TABS_FOR_SCROLL

/-- `onContentSizeChange = (width) => { if (this.scrollContentWidth !== width)
{ this.scrollContentWidth = width; … if (this.hasOverflow() &&
this.childrenCount > minChildrenCount) this.setState({scrollEnabled: true}) } }`.
Note the overflow test runs after `scrollContentWidth` is updated, so it
compares the event's width with the container width. -/
def onContentSizeChange (p : TabBarProps) (screenWidth : Int) (width : Int)
    (s : TabBarState) : TabBarState :=
  if s.scrollContentWidth ≠ some width then
    let s1 : TabBarState := { s with scrollContentWidth := some width }
    if hasOverflow p screenWidth s1 && childrenCount p > effectiveMinTabs p then
      { s1 with scrollEnabled := true }
    else
      s1
  else
    s

/-- `componentDidUpdate(prevProps, prevState)`: reset the indicator to `0`
when the children count decreased; then adopt `selectedIndex` when it was
manually changed. -/
def componentDidUpdate (p prevProps : TabBarProps) (prevState : TabBarState)
    (s : TabBarState) : TabBarState :=
  let s1 :=
    if childrenCount p < childrenCount prevProps then updateIndicator p 0 s else s
  let isIndexManuallyChanged :=
    p.selectedIndex ≠ prevState.currentIndex ∧ prevProps.selectedIndex ≠ p.selectedIndex
  if isIndexManuallyChanged then updateIndicator p p.selectedIndex s1 else s1

/-- The props `renderChildren` injects into each cloned child that the spec
claims talk about: the `selected` flag and the synthesized
`accessibilityLabel`. -/
structure DecoratedChild where
  selected : Bool
  accessibilityLabel : String
  deriving Repr, DecidableEq

/-- `renderChildren()`: clones each child with `selected:
this.shouldBeMarked(index)` and `accessibilityLabel:
accessLabel ++ " " ++ (index+1) ++ " out of " ++ childrenCount` where
`accessLabel = child.props.accessibilityLabel || child.props.label || ''`. -/
def renderChildren (p : TabBarProps) (s : TabBarState) : List DecoratedChild :=
  p.children.mapIdx fun index child =>
    let accessLabel := jsOrString child.accessibilityLabel (jsOrString child.label "")
    { selected := shouldBeMarked p s index
      accessibilityLabel :=
        accessLabel ++ " " ++ toString (index + 1) ++ " out of " ++
          toString (childrenCount p) }

/-- An externally triggered operation on a mounted component: a tab press, a
content-size-change event, a scroll event, or a React update pass (with the
previous props and state React hands to `componentDidUpdate`). -/
inductive TabBarOp where
  | itemPress (index : Nat)
  | contentSize (width : Int)
  | scrollEv (x y : Int)
  | didUpdate (prevProps : TabBarProps) (prevState : TabBarState)
  deriving Repr, DecidableEq

/-- The state transition of one operation under the current props. -/
def step (p : TabBarProps) (screenWidth : Int) (op : TabBarOp)
    (s : TabBarState) : TabBarState :=
  match op with
  | TabBarOp.itemPress index => (pressTab p index s).1
  | TabBarOp.contentSize width => onContentSizeChange p screenWidth width s
  | TabBarOp.scrollEv x y => onScroll x y s
  | TabBarOp.didUpdate pp ps => componentDidUpdate p pp ps s

/-- Run a sequence of operations, each under the props current at that step. -/
def runOps (screenWidth : Int) (ops : List (TabBarProps × TabBarOp))
    (s : TabBarState) : TabBarState :=
  ops.foldl (fun st pr => step pr.1 screenWidth pr.2 st) s

/-! Concrete fixtures used by counterexamples and witnesses. -/

/-- A tab child with no special props. -/
def plainChild : Child :=
  { ignore := false, accessibilityLabel := none, label := none }

/-- A tab child carrying the `ignore` prop. -/
def ignoredChild : Child :=
  { ignore := true, accessibilityLabel := none, label := none }

/-- Two tabs, the second one ignored; container width 100. -/
def twoTabProps : TabBarProps :=
  { children := [plainChild, ignoredChild]
    minTabsForScroll := none
    selectedIndex := 0
    containerWidth := some 100 }

/-- A single plain tab; container width 100. -/
def oneTabProps : TabBarProps :=
  { children := [plainChild]
    minTabsForScroll := none
    selectedIndex := 0
    containerWidth := some 100 }

/-- Two plain tabs; container width 100. -/
def twoPlainProps : TabBarProps :=
  { children := [plainChild, plainChild]
    minTabsForScroll := none
    selectedIndex := 0
    containerWidth := some 100 }

/-- Three plain tabs; container width 100. -/
def threePlainProps : TabBarProps :=
  { children := [plainChild, plainChild, plainChild]
    minTabsForScroll := none
    selectedIndex := 0
    containerWidth := some 100 }

/-- Two tabs with the first one ignored; container width 100. -/
def twoTabIgnoredFirst : TabBarProps :=
  { children := [ignoredChild, plainChild]
    minTabsForScroll := none
    selectedIndex := 0
    containerWidth := some 100 }

/-- Two plain tabs with `selectedIndex` moved to 1; container width 100. -/
def selChangedProps : TabBarProps :=
  { children := [plainChild, plainChild]
    minTabsForScroll := none
    selectedIndex := 1
    containerWidth := some 100 }

/-- A component state whose indicator sits at index 1. -/
def stateAt1 : TabBarState :=
  { scrollEnabled := false
    currentIndex := 1
    scrollContentWidth := none
    contentOffsetX := 0
    contentOffsetY := 0 }

/-! Helper lemmas: no operation ever writes `scrollEnabled := false`. -/

theorem updateIndicator_scrollEnabled (p : TabBarProps) (i : Nat) (s : TabBarState) :
    (updateIndicator p i s).scrollEnabled = s.scrollEnabled := by
  unfold updateIndicator
  split <;> rfl

theorem pressTab_scrollEnabled (p : TabBarProps) (i : Nat) (s : TabBarState) :
    (pressTab p i s).1.scrollEnabled = s.scrollEnabled := by
  unfold pressTab onItemPress
  cases p.children[i]? <;> simp [updateIndicator_scrollEnabled]

theorem componentDidUpdate_scrollEnabled (p pp : TabBarProps) (ps s : TabBarState) :
    (componentDidUpdate p pp ps s).scrollEnabled = s.scrollEnabled := by
  unfold componentDidUpdate
  dsimp only
  split_ifs <;> simp [updateIndicator_scrollEnabled]

theorem onContentSizeChange_scrollEnabled_true (p : TabBarProps) (sw w : Int)
    (s : TabBarState) (h : s.scrollEnabled = true) :
    (onContentSizeChange p sw w s).scrollEnabled = true := by
  unfold onContentSizeChange
  dsimp only
  split_ifs <;> simp [h]

theorem step_scrollEnabled_mono (p : TabBarProps) (sw : Int) (op : TabBarOp)
    (s : TabBarState) (h : s.scrollEnabled = true) :
    (step p sw op s).scrollEnabled = true := by
  cases op with
  | itemPress i => simpa [step, pressTab_scrollEnabled] using h
  | contentSize w => exact onContentSizeChange_scrollEnabled_true p sw w s h
  | scrollEv x y => simpa [step, onScroll] using h
  | didUpdate pp ps => simpa [step, componentDidUpdate_scrollEnabled] using h

/-! The claims. -/

/-- C1 (counterexample): the claim says pressing an ignored tab at index `i`
sets `currentIndex = i`.  It does not: `updateIndicator` returns without
touching the state when the index is ignored.  Pressing the ignored tab at
index 1 of `twoTabProps` leaves `currentIndex` at 0. -/
theorem C1_counterexample :
    isIgnored twoTabProps 1 = true ∧
    (pressTab twoTabProps 1 (initialState twoTabProps)).1.currentIndex = 0 ∧
    (pressTab twoTabProps 1 (initialState twoTabProps)).1.currentIndex ≠ 1 := by
  decide

/-- C1 (amended): pressing an ignored tab at a valid index `i` leaves the
state — in particular `currentIndex` — unchanged, does not invoke
`onChangeIndex`, and still invokes `onTabSelected` with `i` (followed by the
item's own `onPress`). -/
theorem C1_ignored_press (p : TabBarProps) (i : Nat) (c : Child)
    (s : TabBarState) (hc : p.children[i]? = some c) (hig : c.ignore = true) :
    pressTab p i s = (s, [TabBarEvent.tabSelected i, TabBarEvent.itemOnPress]) := by
  unfold pressTab onItemPress updateIndicator isIgnored
  rw [hc]
  simp [hig]

/-- C1 (witness): the amended statement at the ignored tab of `twoTabProps`. -/
theorem C1_ignored_press_witness :
    twoTabProps.children[1]? = some ignoredChild ∧
    ignoredChild.ignore = true ∧
    pressTab twoTabProps 1 (initialState twoTabProps) =
      (initialState twoTabProps,
        [TabBarEvent.tabSelected 1, TabBarEvent.itemOnPress]) :=
  ⟨rfl, rfl,
    C1_ignored_press twoTabProps 1 ignoredChild (initialState twoTabProps) rfl rfl⟩

/-- C2: pressing a non-ignored tab at a valid index `i` sets `currentIndex`
to `i` synchronously; the deferred (`setTimeout 0`) part then invokes
`onChangeIndex i`, then `onTabSelected i`, then the item's own `onPress`, in
that order. -/
theorem C2_nonignored_press (p : TabBarProps) (i : Nat) (c : Child)
    (s : TabBarState) (hc : p.children[i]? = some c) (hig : c.ignore = false) :
    pressTab p i s =
      ({ s with currentIndex := i },
        [TabBarEvent.changeIndex i, TabBarEvent.tabSelected i,
          TabBarEvent.itemOnPress]) := by
  unfold pressTab onItemPress updateIndicator isIgnored
  rw [hc]
  simp [hig]

/-- C2 (witness): pressing the non-ignored tab 0 of `twoTabProps`. -/
theorem C2_nonignored_press_witness :
    twoTabProps.children[0]? = some plainChild ∧
    plainChild.ignore = false ∧
    pressTab twoTabProps 0 (initialState twoTabProps) =
      ({ initialState twoTabProps with currentIndex := 0 },
        [TabBarEvent.changeIndex 0, TabBarEvent.tabSelected 0,
          TabBarEvent.itemOnPress]) :=
  ⟨rfl, rfl,
    C2_nonignored_press twoTabProps 0 plainChild (initialState twoTabProps) rfl rfl⟩

/-- C7: a tab is marked selected iff its index equals `currentIndex`, it is
not ignored, and there are strictly more than one children; with exactly one
child no tab is ever marked, whatever `currentIndex` is. -/
theorem C7_marked_iff (p : TabBarProps) (s : TabBarState) (i : Nat) :
    (shouldBeMarked p s i = true ↔
      s.currentIndex = i ∧ isIgnored p i = false ∧ 1 < childrenCount p) ∧
    (childrenCount p = 1 → shouldBeMarked p s i = false) := by
  constructor
  · simp [shouldBeMarked, and_assoc]
  · intro h
    simp [shouldBeMarked, h]

/-- C7 (witness): in `twoTabProps` with the initial state, tab 0 is marked
(via the iff) and in `oneTabProps` (a single child) tab 0 is not marked. -/
theorem C7_marked_iff_witness :
    shouldBeMarked twoTabProps (initialState twoTabProps) 0 = true ∧
    shouldBeMarked oneTabProps (initialState oneTabProps) 0 = false :=
  ⟨(C7_marked_iff twoTabProps (initialState twoTabProps) 0).1.mpr
      (by refine ⟨rfl, rfl, ?_⟩ ; decide),
    (C7_marked_iff oneTabProps (initialState oneTabProps) 0).2 rfl⟩

/-- C10: passing `minTabsForScroll = 0` (a falsy number) makes the effective
minimum the default `MIN_TABS_FOR_SCROLL = 1`, so `onContentSizeChange`
behaves exactly as when the prop is not passed at all. -/
theorem C10_minTabs_zero_default (p : TabBarProps) (sw w : Int) (s : TabBarState) :
    effectiveMinTabs { p with minTabsForScroll := some 0 } = MIN_TABS_FOR_SCROLL ∧
    onContentSizeChange { p with minTabsForScroll := some 0 } sw w s =
      onContentSizeChange { p with minTabsForScroll := none } sw w s := by
  constructor
  · rfl
  · unfold onContentSizeChange
    simp [effectiveMinTabs, jsOrNat, hasOverflow, childrenCount, scrollContainerWidth,
      MIN_TABS_FOR_SCROLL]

/-- C3: when the indicator is at `currentIndex`, the item's ref and layout
are known, and content overflows the container: if the item's right edge
minus the current scroll x exceeds the container width, a scroll to
`x = item.x − containerWidth + item.width` is issued; otherwise if the
item's left edge minus the current scroll x is negative, a scroll to
`x = item.x` is issued; otherwise no scroll is issued. -/
theorem C3_auto_scroll (p : TabBarProps) (sw : Int)
    (refs : List (Option ItemRef)) (r : ItemRef) (l : Layout)
    (s : TabBarState) (a : Bool)
    (href : refs.getD s.currentIndex none = some r) (hl : r.layout = some l)
    (hov : hasOverflow p sw s = true) :
    (l.x + l.width - s.contentOffsetX > scrollContainerWidth p sw →
      scrollToSelected p sw refs s a =
        Except.ok (some
          { x := l.x - scrollContainerWidth p sw + l.width, y := 0, animated := a })) ∧
    (¬ l.x + l.width - s.contentOffsetX > scrollContainerWidth p sw →
      l.x - s.contentOffsetX < 0 →
      scrollToSelected p sw refs s a =
        Except.ok (some { x := l.x, y := 0, animated := a })) ∧
    (¬ l.x + l.width - s.contentOffsetX > scrollContainerWidth p sw →
      ¬ l.x - s.contentOffsetX < 0 →
      scrollToSelected p sw refs s a = Except.ok none) := by
  unfold scrollToSelected
  rw [href]
  dsimp only
  rw [hl]
  dsimp only
  refine ⟨fun h1 => ?_, fun h1 h2 => ?_, fun h1 h2 => ?_⟩
  · simp [hov, h1]
  · simp [hov, h1, h2]
  · simp [hov, h1, h2]

/-- C3 (witness): two tabs of width 50; content width 200, container 100,
offset 0, indicator on tab 1 at `x = 120`: its right edge 170 exceeds 100,
so the component scrolls to `x = 120 − 100 + 50 = 70`. -/
theorem C3_auto_scroll_witness :
    scrollToSelected twoPlainProps 100
      [some { layout := some { x := 0, width := 50 } },
        some { layout := some { x := 120, width := 50 } }]
      { scrollEnabled := true, currentIndex := 1, scrollContentWidth := some 200,
        contentOffsetX := 0, contentOffsetY := 0 } true =
      Except.ok (some { x := 70, y := 0, animated := true }) := by
  have h := C3_auto_scroll twoPlainProps 100
    [some { layout := some { x := 0, width := 50 } },
      some { layout := some { x := 120, width := 50 } }]
    { layout := some { x := 120, width := 50 } } { x := 120, width := 50 }
    { scrollEnabled := true, currentIndex := 1, scrollContentWidth := some 200,
      contentOffsetX := 0, contentOffsetY := 0 } true rfl rfl (by decide)
  exact h.1 (by decide)

/-- C8 (counterexample): the claim says an absent item ref leads to a silent
no-op, but `scrollToSelected` reads `.getLayout()` off the missing entry
without a guard: with an empty `itemsRefs` array it throws a `TypeError`
instead of no-opping. -/
theorem C8_counterexample :
    scrollToSelected twoTabProps 100 [] (initialState twoTabProps) true =
      Except.error typeErrorMsg := by
  rfl

/-- C8 (amended): when the item ref at `currentIndex` is present but its
layout query returns nothing, `scrollToSelected` silently performs no
operation and raises no error; when the ref itself is absent, a `TypeError`
is raised (that access is not guarded). -/
theorem C8_missing_layout_noop (p : TabBarProps) (sw : Int)
    (refs : List (Option ItemRef)) (r : ItemRef) (s : TabBarState) (a : Bool) :
    (refs.getD s.currentIndex none = some r → r.layout = none →
      scrollToSelected p sw refs s a = Except.ok none) ∧
    (refs.getD s.currentIndex none = none →
      scrollToSelected p sw refs s a = Except.error typeErrorMsg) := by
  constructor
  · intro h1 h2
    unfold scrollToSelected
    rw [h1]
    dsimp only
    rw [h2]
  · intro h1
    unfold scrollToSelected
    rw [h1]

/-- C8 (witness): a present ref whose layout is still unavailable yields a
silent no-op. -/
theorem C8_missing_layout_noop_witness :
    scrollToSelected twoTabProps 100 [some { layout := none }]
      (initialState twoTabProps) true = Except.ok none :=
  (C8_missing_layout_noop twoTabProps 100 [some { layout := none }]
    { layout := none } (initialState twoTabProps) true).1 rfl rfl

/-- C9: the cloned child at 0-based position `i` of `n` children receives the
accessibility label `"<label> {i+1} out of {n}"`, where `<label>` is the
child's own `accessibilityLabel` when present (non-empty), else its `label`
prop when present (non-empty), else the empty string. -/
theorem C9_accessibility_label (p : TabBarProps) (s : TabBarState) (i : Nat)
    (c : Child) (hc : p.children[i]? = some c) :
    ((renderChildren p s)[i]?).map DecoratedChild.accessibilityLabel =
      some (jsOrString c.accessibilityLabel (jsOrString c.label "") ++ " " ++
        toString (i + 1) ++ " out of " ++ toString (childrenCount p)) := by
  simp [renderChildren, hc]

/-- C9 (witness): with children `[labelled "Home", unlabelled]`, the labels
read `"Home 1 out of 2"` and `" 2 out of 2"`. -/
theorem C9_accessibility_label_witness :
    ((renderChildren twoTabProps (initialState twoTabProps))[1]?).map
        DecoratedChild.accessibilityLabel =
      some (jsOrString ignoredChild.accessibilityLabel
          (jsOrString ignoredChild.label "") ++ " " ++
        toString (1 + 1) ++ " out of " ++ toString (childrenCount twoTabProps)) :=
  C9_accessibility_label twoTabProps (initialState twoTabProps) 1 ignoredChild rfl

/-- C4 (counterexample): the claim says every content-size-change event with
overflow and enough children turns `scrollEnabled` on, but the handler is
gated on the width actually changing.  Report width 200 with one child
(threshold not met, width stored), then re-report the same 200 after a second
child appeared: the event is skipped and `scrollEnabled` stays `false` even
though 200 exceeds the container width 100 and 2 children exceed the
minimum 1. -/
theorem C4_counterexample :
    (runOps 100
        [(oneTabProps, TabBarOp.contentSize 200),
          (twoPlainProps, TabBarOp.contentSize 200)]
        (initialState oneTabProps)).scrollEnabled = false ∧
    (200 : Int) > scrollContainerWidth twoPlainProps 100 ∧
    childrenCount twoPlainProps > effectiveMinTabs twoPlainProps := by
  decide

/-- C4 (amended): a content-size-change event whose width differs from the
previously recorded content width, exceeds the container width, and arrives
with more children than the effective minimum sets `scrollEnabled` to
`true`; and no operation of the component ever sets `scrollEnabled` back to
`false` (monotonicity). -/
theorem C4_scroll_enable_monotone (sw : Int) :
    (∀ p w s, s.scrollContentWidth ≠ some w →
      w > scrollContainerWidth p sw →
      childrenCount p > effectiveMinTabs p →
      (onContentSizeChange p sw w s).scrollEnabled = true) ∧
    (∀ p op s, s.scrollEnabled = true → (step p sw op s).scrollEnabled = true) := by
  constructor
  · intro p w s hnew hov hcount
    unfold onContentSizeChange
    dsimp only
    rw [if_pos hnew]
    have h1 : hasOverflow p sw { s with scrollContentWidth := some w } = true := by
      simp [hasOverflow, hov]
    simp [h1, hcount]
  · intro p op s h
    exact step_scrollEnabled_mono p sw op s h

/-- C4 (witness): a fresh width report of 200 against container 100 with two
children enables scrolling. -/
theorem C4_scroll_enable_monotone_witness :
    (onContentSizeChange twoPlainProps 100 200
      (initialState twoPlainProps)).scrollEnabled = true :=
  (C4_scroll_enable_monotone 100).1 twoPlainProps 200 (initialState twoPlainProps)
    (by decide) (by decide) (by decide)

/-- Helper for C5: one step keeps `scrollEnabled` off when any
content-size-change it performs reports a width within the container. -/
theorem step_scrollEnabled_false (p : TabBarProps) (sw : Int) (op : TabBarOp)
    (s : TabBarState) (hs : s.scrollEnabled = false)
    (hop : ∀ w, op = TabBarOp.contentSize w → w ≤ scrollContainerWidth p sw) :
    (step p sw op s).scrollEnabled = false := by
  cases op with
  | itemPress i => simpa [step, pressTab_scrollEnabled] using hs
  | contentSize w =>
    have hw := hop w rfl
    unfold step onContentSizeChange
    dsimp only
    split_ifs with h1 h2
    · exfalso
      have : hasOverflow p sw { s with scrollContentWidth := some w } = false := by
        simp only [hasOverflow]
        simp
        omega
      rw [this] at h2
      simp at h2
    · exact hs
    · exact hs
  | scrollEv x y => simpa [step, onScroll] using hs
  | didUpdate pp ps => simpa [step, componentDidUpdate_scrollEnabled] using hs

/-- C5: over any run of operations in which every content-size-change event
reports a width at most the container width current at that step,
`scrollEnabled` is never turned on: it stays at its initial value `false`. -/
theorem C5_no_overflow_never_enabled (sw : Int)
    (ops : List (TabBarProps × TabBarOp)) (s : TabBarState)
    (hs : s.scrollEnabled = false)
    (hops : ∀ pr ∈ ops, ∀ w, pr.2 = TabBarOp.contentSize w →
      w ≤ scrollContainerWidth pr.1 sw) :
    (runOps sw ops s).scrollEnabled = false := by
  induction ops generalizing s with
  | nil => exact hs
  | cons pr rest ih =>
    have hstep := step_scrollEnabled_false pr.1 sw pr.2 s hs
      (hops pr (List.mem_cons_self pr rest))
    exact ih (step pr.1 sw pr.2 s) hstep
      (fun q hq => hops q (List.mem_cons_of_mem pr hq))

/-- C5 (witness): two in-container width reports (50 then 80 against
container 100) leave `scrollEnabled` off. -/
theorem C5_no_overflow_never_enabled_witness :
    (runOps 100
        [(oneTabProps, TabBarOp.contentSize 50),
          (oneTabProps, TabBarOp.contentSize 80)]
        (initialState oneTabProps)).scrollEnabled = false := by
  apply C5_no_overflow_never_enabled
  · rfl
  · intro pr hpr w hw
    simp only [List.mem_cons, List.not_mem_nil, or_false] at hpr
    rcases hpr with h | h <;> subst h <;> cases hw <;> decide

/-- C6 (counterexample): the claim says a children-count decrease always
resets `currentIndex` to 0.  Two failures: (a) `updateIndicator 0` refuses
when the child now at index 0 carries `ignore`, so the indicator stays where
it was; (b) a simultaneous manual `selectedIndex` change runs afterwards and
moves the indicator to the new `selectedIndex` instead of 0. -/
theorem C6_counterexample :
    (childrenCount twoTabIgnoredFirst < childrenCount threePlainProps ∧
      (componentDidUpdate twoTabIgnoredFirst threePlainProps stateAt1
        stateAt1).currentIndex = 1) ∧
    (childrenCount selChangedProps < childrenCount threePlainProps ∧
      (componentDidUpdate selChangedProps threePlainProps
        (initialState threePlainProps)
        (initialState threePlainProps)).currentIndex = 1) := by
  decide

/-- C6 (amended): when the children count decreased, the child now at index 0
is not ignored, and the `selectedIndex` prop was not simultaneously manually
changed, the update resets `currentIndex` to 0. -/
theorem C6_children_decrease_reset (p pp : TabBarProps) (ps s : TabBarState)
    (hdec : childrenCount p < childrenCount pp)
    (hig : isIgnored p 0 = false)
    (hman : ¬(p.selectedIndex ≠ ps.currentIndex ∧ pp.selectedIndex ≠ p.selectedIndex)) :
    (componentDidUpdate p pp ps s).currentIndex = 0 := by
  unfold componentDidUpdate
  dsimp only
  rw [if_pos hdec, if_neg hman]
  unfold updateIndicator
  rw [hig]
  simp

/-- C6 (witness): dropping from three plain tabs to two resets the indicator
to 0. -/
theorem C6_children_decrease_reset_witness :
    (componentDidUpdate twoPlainProps threePlainProps stateAt1
      stateAt1).currentIndex = 0 :=
  C6_children_decrease_reset twoPlainProps threePlainProps stateAt1 stateAt1
    (by decide) (by decide) (by decide)

end RNTabBar
